import Mathlib

/-!
Shallow embedding of `mpdsync.py` (leader/follower MPD synchronizer).

Samples, elapsed times, latencies and tolerances are modelled as exact
rationals.  Fallible values (a status field that may be missing) are
`Option`s.  The Python object graph that matters for the per-track
diagnostic archives (which alias the live windows) is modelled with an
explicit store of list references.
-/

/-! ## Basic list statistics (`AveragedList._updateStats` helpers) -/

/-- Maximum of a list of rationals, `0` on the empty list (Python's
`max` is only ever called on non-empty lists in the source). -/
def listMax : List ℚ → ℚ
  | [] => 0
  | x :: xs => xs.foldl max x

/-- Minimum of a list of rationals, `0` on the empty list. -/
def listMin : List ℚ → ℚ
  | [] => 0
  | x :: xs => xs.foldl min x

/-- Moving average: the mean of the first (newest) at most 10 samples,
as in `_updateStats` (`self[:10]`). -/
def movingAverage (l : List ℚ) : ℚ :=
  (l.take 10).sum / ((l.take 10).length : ℚ)

/-- Moving range: `max - min` of the first at most 10 samples. -/
def movingRange (l : List ℚ) : ℚ :=
  listMax (l.take 10) - listMin (l.take 10)

/-- Python 2's `round(q, 3)`: rounding to 3 decimal places, ties away
from zero. -/
def pyRound3 (q : ℚ) : ℚ :=
  if q < 0 then -(((⌊-q * 1000 + 1/2⌋ : ℤ) : ℚ) / 1000)
  else ((⌊q * 1000 + 1/2⌋ : ℤ) : ℚ) / 1000

/-! ## `AveragedList`: the windowed statistic -/

/-- The windowed statistic: a list of samples plus an optional capacity
and the cached derived quantities, exactly the attributes set in
`AveragedList.__init__`. -/
structure AveragedList where
  data : List ℚ
  length : Option ℕ
  max : ℚ
  min : ℚ
  range : ℚ
  average : ℚ
  overall_average : ℚ
  overall_range : ℚ

/-- `AveragedList._updateStats`: recompute every cached quantity from
the current contents. -/
def AveragedList.updateStats (w : AveragedList) : AveragedList :=
  { w with
    average := movingAverage w.data
    overall_average := w.data.sum / (w.data.length : ℚ)
    max := listMax w.data
    min := listMin w.data
    overall_range := listMax w.data - listMin w.data
    range := movingRange w.data }

/-- `AveragedList.__init__`: stats start at 0; when initial data is
supplied (non-empty, by Python truthiness) the stats are recomputed. -/
def AveragedList.init (data : List ℚ) (length : Option ℕ) : AveragedList :=
  if data.isEmpty then
    { data := [], length := length, max := 0, min := 0, range := 0,
      average := 0, overall_average := 0, overall_range := 0 }
  else
    AveragedList.updateStats
      { data := data, length := length, max := 0, min := 0, range := 0,
        average := 0, overall_average := 0, overall_range := 0 }

/-- `AveragedList.append`: add at the end and recompute stats.  Note
the source's `append` performs no capacity eviction. -/
def AveragedList.append (w : AveragedList) (x : ℚ) : AveragedList :=
  AveragedList.updateStats { w with data := w.data ++ [x] }

/-- `AveragedList.clear`: pop until empty.  The source does not call
`_updateStats` here, so the cached quantities are left untouched. -/
def AveragedList.clear (w : AveragedList) : AveragedList :=
  { w with data := [] }

/-- `AveragedList.extend`: concatenate and recompute stats (again with
no capacity eviction). -/
def AveragedList.extend (w : AveragedList) (xs : List ℚ) : AveragedList :=
  AveragedList.updateStats { w with data := w.data ++ xs }

/-- Python `list.insert(pos, x)`: positions past the end append. -/
def pyInsert (pos : ℕ) (x : ℚ) (l : List ℚ) : List ℚ :=
  l.take pos ++ x :: l.drop pos

/-- The eviction loop in `AveragedList.insert`:
`while (self.length and len(self) > self.length): self.pop()`.
A capacity of `None` (or falsy `0`) never evicts; otherwise elements
are popped from the end until the length bound holds, i.e. the first
`n` elements are kept. -/
def capTruncate : Option ℕ → List ℚ → List ℚ
  | none, l => l
  | some 0, l => l
  | some (n + 1), l => l.take (n + 1)

/-- `AveragedList.insert`: insert at `pos`, evict beyond the capacity,
recompute stats. -/
def AveragedList.insert (w : AveragedList) (pos : ℕ) (x : ℚ) : AveragedList :=
  AveragedList.updateStats
    { w with data := capTruncate w.length (pyInsert pos x w.data) }

/-! ## Drift measurement (`Master._current_difference`) -/

/-- The per-measurement network observations: the leader's elapsed time
(after `self.status()`), the follower's cached elapsed time and current
track index (after `slave.status()`), the timed duration of the
follower's status call, and the file of the follower's current track. -/
structure Measurement where
  masterElapsed : ℚ
  slaveElapsed : Option ℚ
  slaveStatusLatency : ℚ
  slaveSong : Option ℕ
  slaveFile : String

/-- The follower-side state touched by the drift measurement.  The live
windows `currentSongAdjustments` / `currentSongDifferences` and the
per-track diagnostic archives hold references into `store`, because in
the source the archive entries alias the live list objects. -/
structure SlaveSync where
  shouldSeek : Bool
  lastSong : Option ℕ
  song : Option ℕ
  adjRef : ℕ
  diffRef : ℕ
  archAdj : List (String × ℕ)
  archDiff : List (String × ℕ)
  store : ℕ → List ℚ
  nextRef : ℕ

/-- Write one reference of the store. -/
def setStore (st : ℕ → List ℚ) (r : ℕ) (v : List ℚ) : ℕ → List ℚ :=
  fun i => if i = r then v else st i

/-- The track-change block of `Master._current_difference` (executed
when `slave.lastSong != slave.song`): set `currentSongShouldSeek`,
replace both windows with fresh empty lists, update `lastSong`, and
append the freshly created (empty, still live) windows to
`song_adjustments` / `song_differences`, labelled with the new track's
file. -/
def trackChangeReset (s : SlaveSync) (file : String) : SlaveSync :=
  { s with
    shouldSeek := true
    adjRef := s.nextRef
    diffRef := s.nextRef + 1
    lastSong := s.song
    archAdj := s.archAdj ++ [(file, s.nextRef)]
    archDiff := s.archDiff ++ [(file, s.nextRef + 1)]
    store := setStore (setStore s.store s.nextRef []) (s.nextRef + 1) []
    nextRef := s.nextRef + 2 }

/-- `Master._current_difference`, after the pings and the two timed
status calls (whose results are the `Measurement`): run the
track-change reset if the follower's track index changed, then, if the
follower's cached elapsed is truthy (present and nonzero), push
`masterElapsed - (slaveElapsed + slaveStatusLatency)` newest-first onto
`currentSongDifferences` and return the absolute moving average;
otherwise fall through returning `None`. -/
def currentDifferenceStep (s : SlaveSync) (m : Measurement) : SlaveSync × Option ℚ :=
  let s0 : SlaveSync := { s with song := m.slaveSong }
  let s1 := if s0.lastSong ≠ s0.song then trackChangeReset s0 m.slaveFile else s0
  match m.slaveElapsed with
  | none => (s1, none)
  | some e =>
    if e = 0 then (s1, none)
    else
      let d := m.masterElapsed - (e + m.slaveStatusLatency)
      let diffs := d :: s1.store s1.diffRef
      ({ s1 with store := setStore s1.store s1.diffRef diffs },
       some |movingAverage diffs|)

/-! ## Tolerance (`Seeker._max_difference`) -/

/-- `minimumMaxDifference` local of `Seeker._max_difference`: at least
30 ms, and at least half the biggest absolute sample among the newest
at most 10. -/
def minimumMaxDifference (diffs : List ℚ) : ℚ :=
  max (3/100) ((1/2) * max |listMax (diffs.take 10)| |listMin (diffs.take 10)|)

/-- The range-based part of `Seeker._max_difference`: a quarter of the
moving range plus half the absolute moving average with 10 or more
samples, half the moving range with 5 to 9. -/
def maxDifferenceRange (diffs : List ℚ) : ℚ :=
  if 10 ≤ diffs.length then
    movingRange diffs / 4 + |movingAverage diffs| / 2
  else movingRange diffs / 2

/-- `Seeker._max_difference` before the adjustment-count increase and
the final rounding: the range-based value floored at
`minimumMaxDifference` with 5 or more samples, otherwise
`30 * max(slave ping avg, master ping avg)` clamped to
`[0.030, 0.200]` when the slave's ping average is truthy, otherwise
`0.200`. -/
def maxDifferenceRaw (diffs : List ℚ) (spA mpA : ℚ) : ℚ :=
  if 5 ≤ diffs.length then
    if maxDifferenceRange diffs < minimumMaxDifference diffs then
      minimumMaxDifference diffs
    else maxDifferenceRange diffs
  else if spA ≠ 0 then min (1/5) (max (3/100) (30 * max spA mpA))
  else 1/5

/-- `Seeker._max_difference`: the raw tolerance, plus 25 ms per
`currentSongAdjustments` entry over 3, rounded to 3 decimal places
(`round(maxDifference, 3)`). -/
def maxDifference (diffs : List ℚ) (spA mpA : ℚ) (adjCount : ℕ) : ℚ :=
  pyRound3 (maxDifferenceRaw diffs spA mpA +
    (if 3 < adjCount then (1/40) * ((adjCount : ℚ) - 3) else 0))

/-- Modelled from the spec: the adaptive tolerance table of the
reseek-trigger policy, exactly as the spec words it (rows on the sample
count, floor `max(0.030, 0.5 * max_abs)`, ping clamp to
`[0.030, 0.200]`, plus `0.025 * (count - 3)` with more than 3
adjustments).  The spec states no rounding. -/
def specTolerance (diffs : List ℚ) (spA mpA : ℚ) (adjCount : ℕ) : ℚ :=
  (if 10 ≤ diffs.length then
    max (movingRange diffs / 4 + |movingAverage diffs| / 2)
      (max (3/100) ((1/2) * max |listMax (diffs.take 10)| |listMin (diffs.take 10)|))
  else if 5 ≤ diffs.length then
    max (movingRange diffs / 2)
      (max (3/100) ((1/2) * max |listMax (diffs.take 10)| |listMin (diffs.take 10)|))
  else if spA ≠ 0 then min (1/5) (max (3/100) (30 * max spA mpA))
  else 1/5)
  + (if 3 < adjCount then (1/40) * ((adjCount : ℚ) - 3) else 0)

/-! ## Reseek trigger (`Seeker._reseek_necessary`) -/

/-- `Seeker._reseek_necessary`: no reseek when `currentSongShouldSeek`
is false; otherwise run the measurement, compute the tolerance, refuse
with fewer than 3 samples, and reseek exactly when the returned
estimate and the newest individual sample both exceed the tolerance
(a `None` estimate compares below every number in Python 2). -/
def reseekNecessary (s : SlaveSync) (m : Measurement) (spA mpA : ℚ) : Bool :=
  if s.shouldSeek then
    match currentDifferenceStep s m with
    | (s1, cd) =>
      let diffs := s1.store s1.diffRef
      let md := maxDifference diffs spA mpA (s1.store s1.adjRef).length
      if diffs.length < 3 then false
      else
        match cd with
        | none => false
        | some d => decide (md < d ∧ md < |diffs.headD 0|)
  else false

/-! ## Correction (`Seeker._calc_adjustment`) -/

/-- Python's `even`. -/
def even (num : ℕ) : Bool := num % 2 == 0

/-- The dynamic selection in `Seeker._calc_adjustment`: first
correction for the track uses three quarters of the average lifetime
adjustment when more than `MAX_ADJUSTMENTS = 5` lifetime adjustments
exist, else the ping average; later corrections alternate between the
ping average (odd counts) and the average difference (even counts)
once the track has more than 5 adjustments, else use the average
difference. -/
def chooseAdjustment (adjustments csAdjs diffs : List ℚ) (pingsAvg : ℚ) : ℚ :=
  if csAdjs.length < 1 then
    if 5 < adjustments.length then movingAverage adjustments * (3/4)
    else pingsAvg
  else if 5 < csAdjs.length then
    if !even csAdjs.length then pingsAvg
    else movingAverage diffs
  else movingAverage diffs

/-- `Seeker._calc_adjustment`: returns the adjustment together with the
resulting `currentSongDifferences` contents (cleared when adjusting by
ping).  A user-set static latency is returned unchanged; a dynamic
choice larger than `MAX_ADJUSTMENT = 0.300` in magnitude is replaced by
the ping average, then an adjustment equal to the ping average clears
the differences and is used as-is while any other adjustment is
negated. -/
def calcAdjustment (latency : Option ℚ) (adjustments csAdjs diffs : List ℚ)
    (pingsAvg : ℚ) : ℚ × List ℚ :=
  match latency with
  | some l => (l, diffs)
  | none =>
    let a := chooseAdjustment adjustments csAdjs diffs pingsAvg
    let a2 := if 3/10 < |a| then pingsAvg else a
    if a2 = pingsAvg then (a2, []) else (-a2, diffs)

/-- Modelled from the spec: the safety clamp and sign convention
(steps 4 and 5 of the correction policy) applied to a dynamically
computed correction `a`. -/
def clampSignSpec (a pingsAvg : ℚ) (diffs : List ℚ) : ℚ × List ℚ :=
  let a2 := if 3/10 < |a| then pingsAvg else a
  if a2 = pingsAvg then (a2, []) else (-a2, diffs)

/-! ## Startup checks (`main` and `sys.exit(main())`) -/

/-- The command-line arguments `main` examines for its early error
returns. -/
structure Args where
  master : Option String
  slaves : List String

/-- Python truthiness of an optional string (`argparse` leaves a
missing option as `None`). -/
def strTruthy : Option String → Bool
  | none => false
  | some s => !s.isEmpty

/-- The control flow of `main` around its `return False` statements:
missing master, empty slave list, failed master connection, or no
slave connected each return `False`; otherwise `main` only leaves its
idle loop through an interrupt, returning `None`. -/
def mainRet (args : Args) (masterConnectOk : Bool)
    (slaveConnectOk : String → Bool) : Option Bool :=
  if !strTruthy args.master then some false
  else if args.slaves.isEmpty then some false
  else if !masterConnectOk then some false
  else if (args.slaves.filter slaveConnectOk).isEmpty then some false
  else none

/-- Modelled from Python 2 semantics of `sys.exit(main())`: `None`
exits with status 0, and a `bool` is an `int` (`False = 0`, `True = 1`)
used directly as the exit status. -/
def sysExitStatus : Option Bool → ℕ
  | none => 0
  | some false => 0
  | some true => 1

/-! ## Concrete states used by witnesses and counterexamples -/

/-- A store with every reference empty. -/
def emptyStore : ℕ → List ℚ := fun _ => []

/-- A follower mid-track: windows at references 0 and 1 (already
archived for file `t0`), no track change pending. -/
def slaveBase : SlaveSync :=
  { shouldSeek := true, lastSong := some 0, song := some 0,
    adjRef := 0, diffRef := 1,
    archAdj := [("t0", 0)], archDiff := [("t0", 1)],
    store := emptyStore, nextRef := 2 }

/-- A store holding one adjustment and one difference sample for the
current track. -/
def storeMid : ℕ → List ℚ :=
  fun i => if i = 0 then [2] else if i = 1 then [7] else []

/-- Like `slaveBase`, but with accumulated samples in the windows. -/
def slaveMid : SlaveSync :=
  { shouldSeek := true, lastSong := some 0, song := some 0,
    adjRef := 0, diffRef := 1,
    archAdj := [("t0", 0)], archDiff := [("t0", 1)],
    store := storeMid, nextRef := 2 }

/-- A measurement whose follower status reports elapsed exactly 0. -/
def measZero : Measurement := ⟨5, some 0, 1/2, some 0, "t0"⟩

/-- A measurement whose follower status reports no elapsed. -/
def measNone : Measurement := ⟨5, none, 1/2, some 0, "t0"⟩

/-- A measurement with a nonzero follower elapsed, same track. -/
def measOne : Measurement := ⟨5, some 1, 1/10, some 0, "t0"⟩

/-- A measurement observing a track change (index 0 to 1). -/
def measChange : Measurement := ⟨5, some 1, 1/10, some 1, "t1"⟩

/-! ## Helper lemmas -/

/-- Selecting the larger branch with an `if` is `max`. -/
theorem ite_lt_eq_max (a b : ℚ) : (if a < b then b else a) = max a b := by
  split_ifs with h
  · exact (max_eq_right h.le).symm
  · exact (max_eq_left (le_of_not_lt h)).symm

/-- Rounding to 3 decimals, ties away from zero, is monotone. -/
theorem pyRound3_mono {x y : ℚ} (h : x ≤ y) : pyRound3 x ≤ pyRound3 y := by
  unfold pyRound3
  split_ifs with hx hy
  · have hf : ⌊-y * 1000 + 1/2⌋ ≤ ⌊-x * 1000 + 1/2⌋ := Int.floor_mono (by linarith)
    have hq : ((⌊-y * 1000 + 1/2⌋ : ℤ) : ℚ) ≤ ((⌊-x * 1000 + 1/2⌋ : ℤ) : ℚ) := by
      exact_mod_cast hf
    linarith
  · have h1 : (0:ℤ) ≤ ⌊-x * 1000 + 1/2⌋ := Int.floor_nonneg.mpr (by linarith)
    have h2 : (0:ℤ) ≤ ⌊y * 1000 + 1/2⌋ := Int.floor_nonneg.mpr (by linarith)
    have h1' : (0:ℚ) ≤ ((⌊-x * 1000 + 1/2⌋ : ℤ) : ℚ) := by exact_mod_cast h1
    have h2' : (0:ℚ) ≤ ((⌊y * 1000 + 1/2⌋ : ℤ) : ℚ) := by exact_mod_cast h2
    linarith
  · linarith
  · have hf : ⌊x * 1000 + 1/2⌋ ≤ ⌊y * 1000 + 1/2⌋ := Int.floor_mono (by linarith)
    have hq : ((⌊x * 1000 + 1/2⌋ : ℤ) : ℚ) ≤ ((⌊y * 1000 + 1/2⌋ : ℤ) : ℚ) := by
      exact_mod_cast hf
    linarith

/-- A measurement on an unchanged track with a truthy elapsed: no
reset, one sample pushed, the absolute moving average returned. -/
theorem currentDifferenceStep_push (s : SlaveSync) (m : Measurement) (e : ℚ)
    (hsong : s.lastSong = m.slaveSong) (he : m.slaveElapsed = some e) (hne : e ≠ 0) :
    currentDifferenceStep s m =
      ({ s with
         song := m.slaveSong
         store := setStore s.store s.diffRef
           ((m.masterElapsed - (e + m.slaveStatusLatency)) :: s.store s.diffRef) },
       some |movingAverage
         ((m.masterElapsed - (e + m.slaveStatusLatency)) :: s.store s.diffRef)|) := by
  unfold currentDifferenceStep
  rw [he]
  simp [hsong, hne]

/-- A measurement on an unchanged track with a falsy elapsed: no reset,
nothing pushed, no estimate. -/
theorem currentDifferenceStep_falsy (s : SlaveSync) (m : Measurement)
    (hsong : s.lastSong = m.slaveSong)
    (he : m.slaveElapsed = none ∨ m.slaveElapsed = some 0) :
    currentDifferenceStep s m = ({ s with song := m.slaveSong }, none) := by
  unfold currentDifferenceStep
  rcases he with he | he <;> rw [he] <;> simp [hsong]

/-! ## Claim C4 -/

/-- C4: for every dynamically computed correction (no user-supplied
static latency), `_calc_adjustment` applies exactly the spec's safety
clamp and sign convention to the selected correction: a magnitude above
0.300 is replaced by the ping moving average; afterwards a correction
equal to the ping moving average is applied as-is and clears
`currentSongDifferences`, and any other correction is negated. -/
theorem C4_theorem (adjustments csAdjs diffs : List ℚ) (pingsAvg : ℚ) :
    calcAdjustment none adjustments csAdjs diffs pingsAvg =
      clampSignSpec (chooseAdjustment adjustments csAdjs diffs pingsAvg)
        pingsAvg diffs := rfl

/-! ## Claim C6 -/

/-- C6 counterexample: a windowed statistic of capacity 1 holds 2
samples after two `append`s — `append` performs no eviction, so the
claim that every insertion operation respects the capacity is false. -/
theorem C6_counterexample :
    ¬ ((((AveragedList.init [] (some 1)).append 1).append 2).data.length ≤ 1) := by
  norm_num [AveragedList.init, AveragedList.append, AveragedList.updateStats]

/-- C6 amended: insertions that go through `insert` never leave more
than the capacity `n` (for `n ≥ 1`) held; `append` and `extend` do not
enforce the bound. -/
theorem C6_theorem (w : AveragedList) (pos : ℕ) (x : ℚ) (n : ℕ)
    (hlen : w.length = some n) (hn : 1 ≤ n) :
    ((w.insert pos x).data.length ≤ n) := by
  unfold AveragedList.insert AveragedList.updateStats
  rw [hlen]
  cases n with
  | zero => omega
  | succ k => simp [capTruncate, List.length_take]

/-- C6 witness: inserting into a capacity-2 window keeps at most 2
samples. -/
theorem C6_witness :
    (AveragedList.init [] (some 2)).length = some 2 ∧ 1 ≤ 2 ∧
      (((AveragedList.init [] (some 2)).insert 0 1).data.length ≤ 2) :=
  ⟨rfl, by norm_num, C6_theorem (AveragedList.init [] (some 2)) 0 1 2 rfl (by norm_num)⟩

/-! ## Claim C7 -/

/-- C7 counterexample: after `clear` the window holds no samples but
its cached moving average keeps its old value (`clear` never calls
`_updateStats`), so "empty implies all derived quantities are 0" is
false immediately after a clear. -/
theorem C7_counterexample :
    ((AveragedList.init [1] none).clear).data = [] ∧
      ((AveragedList.init [1] none).clear).average ≠ 0 := by
  constructor
  · rfl
  · norm_num [AveragedList.init, AveragedList.clear, AveragedList.updateStats,
      movingAverage]

/-- C7 amended: a freshly constructed window with no samples has every
derived quantity equal to 0, while `clear` empties the samples but
leaves all derived quantities at their previously computed values. -/
theorem C7_theorem :
    (∀ cap : Option ℕ,
      (AveragedList.init [] cap).average = 0 ∧
      (AveragedList.init [] cap).overall_average = 0 ∧
      (AveragedList.init [] cap).min = 0 ∧
      (AveragedList.init [] cap).max = 0 ∧
      (AveragedList.init [] cap).range = 0) ∧
    (∀ w : AveragedList,
      (w.clear).data = [] ∧
      (w.clear).average = w.average ∧
      (w.clear).overall_average = w.overall_average ∧
      (w.clear).min = w.min ∧
      (w.clear).max = w.max ∧
      (w.clear).range = w.range) := by
  constructor
  · intro cap
    simp [AveragedList.init]
  · intro w
    simp [AveragedList.clear]

/-! ## Claim C8 -/

/-- C8: at each of the three error conditions — missing leader
endpoint, empty follower list, no follower connected — `main` returns
`False` and `sys.exit(False)` exits with status 0, because a Python
bool is an int and `False` has value 0.  The claim (and the spec) say
these exits are non-zero; the code's intent is clearly an error exit,
so this is a slip in the code. -/
theorem C8_theorem :
    sysExitStatus (mainRet ⟨none, ["h1"]⟩ true (fun _ => true)) = 0 ∧
    sysExitStatus (mainRet ⟨some "m1", []⟩ true (fun _ => true)) = 0 ∧
    sysExitStatus (mainRet ⟨some "m1", ["h1"]⟩ true (fun _ => false)) = 0 :=
  ⟨rfl, rfl, rfl⟩

/-! ## Claim C3 -/

/-- C3 counterexample: with ten samples whose range-based tolerance is
0.5002 the code rounds the tolerance to 0.500, so `M` is not computed
exactly by the adaptive table — the code finishes with
`round(maxDifference, 3)`, which the table omits. -/
theorem C3_counterexample :
    ¬ (maxDifference [999/1000, 1, 1, 1, 1, 1, 1, 1, 1, 1] 0 0 0 =
       specTolerance [999/1000, 1, 1, 1, 1, 1, 1, 1, 1, 1] 0 0 0) := by
  have h1 : |(9999:ℚ)/10000| = 9999/10000 := abs_of_nonneg (by norm_num)
  have h2 : |(999:ℚ)/1000| = 999/1000 := abs_of_nonneg (by norm_num)
  norm_num [maxDifference, specTolerance, maxDifferenceRaw, maxDifferenceRange,
    minimumMaxDifference, movingAverage, movingRange, listMax, listMin,
    pyRound3, h1, h2, max_def, min_def]

/-- C3 amended: the tolerance `M` equals the spec's adaptive table
value rounded to 3 decimal places (ties away from zero). -/
theorem C3_theorem (diffs : List ℚ) (spA mpA : ℚ) (adjCount : ℕ) :
    maxDifference diffs spA mpA adjCount =
      pyRound3 (specTolerance diffs spA mpA adjCount) := by
  unfold maxDifference specTolerance
  congr 1
  have hraw : maxDifferenceRaw diffs spA mpA =
      (if 10 ≤ diffs.length then
        max (movingRange diffs / 4 + |movingAverage diffs| / 2)
          (max (3/100)
            ((1/2) * max |listMax (diffs.take 10)| |listMin (diffs.take 10)|))
      else if 5 ≤ diffs.length then
        max (movingRange diffs / 2)
          (max (3/100)
            ((1/2) * max |listMax (diffs.take 10)| |listMin (diffs.take 10)|))
      else if spA ≠ 0 then min (1/5) (max (3/100) (30 * max spA mpA))
      else 1/5) := by
    unfold maxDifferenceRaw maxDifferenceRange minimumMaxDifference
    rcases le_or_lt 10 diffs.length with h10 | h10
    · have h5 : 5 ≤ diffs.length := by omega
      rw [if_pos h5, if_pos h10, if_pos h10, ite_lt_eq_max]
    · rw [if_neg (by omega : ¬ 10 ≤ diffs.length)]
      rcases le_or_lt 5 diffs.length with h5 | h5
      · rw [if_pos h5, if_neg (by omega : ¬ 10 ≤ diffs.length), ite_lt_eq_max,
          if_pos h5]
      · rw [if_neg (by omega : ¬ 5 ≤ diffs.length),
          if_neg (by omega : ¬ 10 ≤ diffs.length),
          if_neg (by omega : ¬ 5 ≤ diffs.length)]
  rw [hraw]

/-! ## Claim C9 -/

/-- C9: for a fixed drift history (fixed `currentSongDifferences`
contents and fixed ping averages) the tolerance `M` is non-decreasing
in the number of entries of `currentSongAdjustments`. -/
theorem C9_theorem (diffs : List ℚ) (spA mpA : ℚ) (c1 c2 : ℕ) (h : c1 ≤ c2) :
    maxDifference diffs spA mpA c1 ≤ maxDifference diffs spA mpA c2 := by
  unfold maxDifference
  apply pyRound3_mono
  split_ifs with h1 h2 h2
  · have hc : ((c1 : ℚ) : ℚ) ≤ (c2 : ℚ) := by exact_mod_cast h
    linarith
  · omega
  · have hc : (4 : ℚ) ≤ (c2 : ℚ) := by exact_mod_cast h2
    linarith
  · linarith

/-- C9 witness: with an empty history the tolerance at 2 adjustments is
at most the tolerance at 5 adjustments. -/
theorem C9_witness :
    2 ≤ 5 ∧ maxDifference [] 0 0 2 ≤ maxDifference [] 0 0 5 :=
  ⟨by norm_num, C9_theorem [] 0 0 2 5 (by norm_num)⟩

/-! ## Claim C1 -/

/-- C1 counterexample: a status reporting the non-null elapsed time 0.0
is falsy in Python, so the measurement pushes no sample and returns no
estimate, contradicting the claim (which predicts the sample
`5 - (0 + 1/2) = 9/2` pushed and the estimate `9/2` returned). -/
theorem C1_counterexample :
    ¬ ((currentDifferenceStep slaveBase measZero).1.store slaveBase.diffRef =
         [9/2] ∧
       (currentDifferenceStep slaveBase measZero).2 = some (9/2)) := by
  intro hcontra
  have h := hcontra.2
  rw [currentDifferenceStep_falsy slaveBase measZero rfl (Or.inr rfl)] at h
  exact Option.noConfusion h

/-- C1 amended: for every drift measurement of a follower whose status
reports a non-null and nonzero elapsed time (and no pending track
change), the sample pushed newest-first onto `currentSongDifferences`
is `elapsed_leader - (elapsed_follower + t_F)` with `t_F` the measured
duration of the follower's status call, and the measurement returns the
absolute moving average of `currentSongDifferences` as the drift
estimate. -/
theorem C1_theorem (s : SlaveSync) (m : Measurement) (e : ℚ)
    (hsong : s.lastSong = m.slaveSong) (he : m.slaveElapsed = some e)
    (hne : e ≠ 0) :
    (currentDifferenceStep s m).1.store s.diffRef =
      (m.masterElapsed - (e + m.slaveStatusLatency)) :: s.store s.diffRef ∧
    (currentDifferenceStep s m).2 =
      some |movingAverage
        ((m.masterElapsed - (e + m.slaveStatusLatency)) :: s.store s.diffRef)| := by
  rw [currentDifferenceStep_push s m e hsong he hne]
  constructor
  · simp [setStore]
  · rfl

/-- C1 witness: a concrete measurement with elapsed 1 pushes the sample
`5 - (1 + 1/10)` and returns its absolute moving average. -/
theorem C1_witness :
    slaveBase.lastSong = measOne.slaveSong ∧
    measOne.slaveElapsed = some 1 ∧ (1:ℚ) ≠ 0 ∧
    ((currentDifferenceStep slaveBase measOne).1.store slaveBase.diffRef =
       (measOne.masterElapsed - (1 + measOne.slaveStatusLatency)) ::
         slaveBase.store slaveBase.diffRef ∧
     (currentDifferenceStep slaveBase measOne).2 =
       some |movingAverage
         ((measOne.masterElapsed - (1 + measOne.slaveStatusLatency)) ::
           slaveBase.store slaveBase.diffRef)|) :=
  ⟨rfl, rfl, by norm_num, C1_theorem slaveBase measOne 1 rfl rfl (by norm_num)⟩

/-! ## Claim C10 -/

/-- C10: when the follower's cached elapsed time is absent or exactly
0.0 the measurement pushes no sample onto `currentSongDifferences` and
returns no estimate, and the reseek trigger treats the absent estimate
as not exceeding the tolerance, so no reseek is warranted on that
iteration. -/
theorem C10_theorem (s : SlaveSync) (m : Measurement) (spA mpA : ℚ)
    (hsong : s.lastSong = m.slaveSong)
    (he : m.slaveElapsed = none ∨ m.slaveElapsed = some 0) :
    (currentDifferenceStep s m).1.store s.diffRef = s.store s.diffRef ∧
    (currentDifferenceStep s m).2 = none ∧
    reseekNecessary s m spA mpA = false := by
  have hstep := currentDifferenceStep_falsy s m hsong he
  refine ⟨by rw [hstep], by rw [hstep], ?_⟩
  unfold reseekNecessary
  rw [hstep]
  cases hss : s.shouldSeek
  · simp
  · simp only [if_pos rfl]
    split_ifs <;> rfl

/-- C10 witness: a concrete measurement with no elapsed pushes nothing,
returns no estimate, and warrants no reseek. -/
theorem C10_witness :
    slaveMid.lastSong = measNone.slaveSong ∧
    (measNone.slaveElapsed = none ∨ measNone.slaveElapsed = some 0) ∧
    ((currentDifferenceStep slaveMid measNone).1.store slaveMid.diffRef =
       slaveMid.store slaveMid.diffRef ∧
     (currentDifferenceStep slaveMid measNone).2 = none ∧
     reseekNecessary slaveMid measNone (1/500) (1/500) = false) :=
  ⟨rfl, Or.inl rfl,
    C10_theorem slaveMid measNone (1/500) (1/500) rfl (Or.inl rfl)⟩

/-! ## Claim C2 -/

/-- C2: for a measurement that produces a drift estimate (truthy
elapsed, no pending track change), a reseek is warranted exactly when
`currentSongShouldSeek` is set, `currentSongDifferences` holds at least
3 samples, the estimate (its absolute moving average) exceeds the
tolerance, and the newest individual sample also exceeds the
tolerance in absolute value. -/
theorem C2_theorem (s : SlaveSync) (m : Measurement) (spA mpA e : ℚ)
    (hsong : s.lastSong = m.slaveSong) (he : m.slaveElapsed = some e)
    (hne : e ≠ 0) (href : s.adjRef ≠ s.diffRef) :
    reseekNecessary s m spA mpA = true ↔
      (s.shouldSeek = true ∧
       3 ≤ ((m.masterElapsed - (e + m.slaveStatusLatency)) ::
             s.store s.diffRef).length ∧
       maxDifference
           ((m.masterElapsed - (e + m.slaveStatusLatency)) :: s.store s.diffRef)
           spA mpA (s.store s.adjRef).length
         < |movingAverage
             ((m.masterElapsed - (e + m.slaveStatusLatency)) ::
               s.store s.diffRef)| ∧
       maxDifference
           ((m.masterElapsed - (e + m.slaveStatusLatency)) :: s.store s.diffRef)
           spA mpA (s.store s.adjRef).length
         < |m.masterElapsed - (e + m.slaveStatusLatency)|) := by
  unfold reseekNecessary
  rw [currentDifferenceStep_push s m e hsong he hne]
  cases hss : s.shouldSeek
  · simp
  · simp only [if_pos rfl]
    have hread : setStore s.store s.diffRef
        ((m.masterElapsed - (e + m.slaveStatusLatency)) :: s.store s.diffRef)
        s.diffRef =
        (m.masterElapsed - (e + m.slaveStatusLatency)) :: s.store s.diffRef := by
      simp [setStore]
    have hadj : setStore s.store s.diffRef
        ((m.masterElapsed - (e + m.slaveStatusLatency)) :: s.store s.diffRef)
        s.adjRef = s.store s.adjRef := by
      simp [setStore, href]
    simp only [hread, hadj]
    by_cases h3 : ((m.masterElapsed - (e + m.slaveStatusLatency)) ::
        s.store s.diffRef).length < 3
    · rw [if_pos h3]
      apply iff_of_false
      · simp
      · rintro ⟨-, hlen, -, -⟩
        omega
    · rw [if_neg h3]
      simp only [List.headD_cons, if_true, decide_eq_true_eq, true_and]
      constructor
      · rintro ⟨hA, hB⟩
        exact ⟨by omega, hA, hB⟩
      · rintro ⟨-, hA, hB⟩
        exact ⟨hA, hB⟩

/-- C2 witness: a concrete measurement with one prior sample — fewer
than 3 samples held, so no reseek is warranted and indeed the
right-hand side fails on the sample count. -/
theorem C2_witness :
    slaveMid.lastSong = measOne.slaveSong ∧
    measOne.slaveElapsed = some 1 ∧ (1:ℚ) ≠ 0 ∧
    slaveMid.adjRef ≠ slaveMid.diffRef ∧
    (reseekNecessary slaveMid measOne (1/500) (1/500) = true ↔
      (slaveMid.shouldSeek = true ∧
       3 ≤ ((measOne.masterElapsed - (1 + measOne.slaveStatusLatency)) ::
             slaveMid.store slaveMid.diffRef).length ∧
       maxDifference
           ((measOne.masterElapsed - (1 + measOne.slaveStatusLatency)) ::
             slaveMid.store slaveMid.diffRef)
           (1/500) (1/500) (slaveMid.store slaveMid.adjRef).length
         < |movingAverage
             ((measOne.masterElapsed - (1 + measOne.slaveStatusLatency)) ::
               slaveMid.store slaveMid.diffRef)| ∧
       maxDifference
           ((measOne.masterElapsed - (1 + measOne.slaveStatusLatency)) ::
             slaveMid.store slaveMid.diffRef)
           (1/500) (1/500) (slaveMid.store slaveMid.adjRef).length
         < |measOne.masterElapsed - (1 + measOne.slaveStatusLatency)|)) :=
  ⟨rfl, rfl, by norm_num, by decide,
    C2_theorem slaveMid measOne (1/500) (1/500) 1 rfl rfl (by norm_num)
      (by decide)⟩

/-! ## Claim C5 -/

/-- C5: when a drift measurement observes a changed track index, then
before interpreting the measurement the controller: sets
`currentSongShouldSeek`, updates `lastSong` to the new index, keeps the
outgoing track's windows (still referenced by the archive entry created
when that track began) intact in the per-track diagnostic lists,
replaces both windows by fresh empty ones (so the differences window
holds at most the new measurement's sample afterwards), and archives
the new live windows under the incoming track's file.  The hypotheses
`ha`/`hd` are the reachable-state invariant that the current windows
were archived when their track began; `hb1`/`hb2` say live references
precede the allocation counter. -/
theorem C5_theorem (s : SlaveSync) (m : Measurement) (fa fd : String)
    (hch : s.lastSong ≠ m.slaveSong)
    (ha : (fa, s.adjRef) ∈ s.archAdj) (hd : (fd, s.diffRef) ∈ s.archDiff)
    (hb1 : s.adjRef < s.nextRef) (hb2 : s.diffRef < s.nextRef) :
    (currentDifferenceStep s m).1.shouldSeek = true ∧
    (currentDifferenceStep s m).1.lastSong = m.slaveSong ∧
    ((fa, s.adjRef) ∈ (currentDifferenceStep s m).1.archAdj ∧
     (currentDifferenceStep s m).1.store s.adjRef = s.store s.adjRef) ∧
    ((fd, s.diffRef) ∈ (currentDifferenceStep s m).1.archDiff ∧
     (currentDifferenceStep s m).1.store s.diffRef = s.store s.diffRef) ∧
    (currentDifferenceStep s m).1.adjRef = s.nextRef ∧
    (currentDifferenceStep s m).1.diffRef = s.nextRef + 1 ∧
    (currentDifferenceStep s m).1.store (currentDifferenceStep s m).1.adjRef
      = [] ∧
    (m.slaveFile, (currentDifferenceStep s m).1.adjRef) ∈
      (currentDifferenceStep s m).1.archAdj ∧
    (m.slaveFile, (currentDifferenceStep s m).1.diffRef) ∈
      (currentDifferenceStep s m).1.archDiff ∧
    (currentDifferenceStep s m).1.store (currentDifferenceStep s m).1.diffRef
      = (match m.slaveElapsed with
         | none => []
         | some e =>
           if e = 0 then []
           else [m.masterElapsed - (e + m.slaveStatusLatency)]) := by
  rcases m with ⟨mE, mel, mlat, msong, mfile⟩
  have hne1 : s.adjRef ≠ s.nextRef := by omega
  have hne2 : s.adjRef ≠ s.nextRef + 1 := by omega
  have hne3 : s.diffRef ≠ s.nextRef := by omega
  have hne4 : s.diffRef ≠ s.nextRef + 1 := by omega
  rcases mel with _ | e
  · simp only [currentDifferenceStep]
    simp [trackChangeReset, setStore, hch, hne1, hne2, hne3, hne4, ha, hd]
  · by_cases he0 : e = 0
    · subst he0
      simp only [currentDifferenceStep]
      simp [trackChangeReset, setStore, hch, hne1, hne2, hne3, hne4, ha, hd]
    · simp only [currentDifferenceStep]
      simp [trackChangeReset, setStore, hch, hne1, hne2, hne3, hne4, he0,
        ha, hd]

/-- C5 witness: a concrete track change (index 0 to 1) with samples
`[2]` and `[7]` in the outgoing windows. -/
theorem C5_witness :
    slaveMid.lastSong ≠ measChange.slaveSong ∧
    ("t0", slaveMid.adjRef) ∈ slaveMid.archAdj ∧
    ("t0", slaveMid.diffRef) ∈ slaveMid.archDiff ∧
    slaveMid.adjRef < slaveMid.nextRef ∧
    slaveMid.diffRef < slaveMid.nextRef ∧
    ((currentDifferenceStep slaveMid measChange).1.shouldSeek = true ∧
     (currentDifferenceStep slaveMid measChange).1.lastSong =
       measChange.slaveSong ∧
     (("t0", slaveMid.adjRef) ∈
        (currentDifferenceStep slaveMid measChange).1.archAdj ∧
      (currentDifferenceStep slaveMid measChange).1.store slaveMid.adjRef =
        slaveMid.store slaveMid.adjRef) ∧
     (("t0", slaveMid.diffRef) ∈
        (currentDifferenceStep slaveMid measChange).1.archDiff ∧
      (currentDifferenceStep slaveMid measChange).1.store slaveMid.diffRef =
        slaveMid.store slaveMid.diffRef) ∧
     (currentDifferenceStep slaveMid measChange).1.adjRef =
       slaveMid.nextRef ∧
     (currentDifferenceStep slaveMid measChange).1.diffRef =
       slaveMid.nextRef + 1 ∧
     (currentDifferenceStep slaveMid measChange).1.store
       (currentDifferenceStep slaveMid measChange).1.adjRef = [] ∧
     (measChange.slaveFile,
       (currentDifferenceStep slaveMid measChange).1.adjRef) ∈
       (currentDifferenceStep slaveMid measChange).1.archAdj ∧
     (measChange.slaveFile,
       (currentDifferenceStep slaveMid measChange).1.diffRef) ∈
       (currentDifferenceStep slaveMid measChange).1.archDiff ∧
     (currentDifferenceStep slaveMid measChange).1.store
       (currentDifferenceStep slaveMid measChange).1.diffRef
       = (match measChange.slaveElapsed with
          | none => []
          | some e =>
            if e = 0 then []
            else [measChange.masterElapsed -
                   (e + measChange.slaveStatusLatency)])) :=
  ⟨by decide, by decide, by decide, by decide, by decide,
    C5_theorem slaveMid measChange "t0" "t0" (by decide) (by decide)
      (by decide) (by decide) (by decide)⟩
